import Mathlib

/-!
# Verification of the token-management hook system

A shallow embedding, in Lean 4, of the enforcement core of the
`claude-lead-system` repository:

* `hooks/hook_utils.py` — the JSON state store (`load_json_state`,
  `save_json_state`) and the default configuration;
* `hooks/token-guard.py` — the spawn guard: stdin triage, session-id
  validation, the stale-state sweep, the rule cascade R1–R7 (including the
  necessity classifier built on `re.search` and `difflib.SequenceMatcher`,
  and the type-switching detector), and the allow path with
  `extract_target_dirs`;
* `hooks/read-efficiency-guard.py` — the read guard: duplicate-path block,
  sequential-read escalation and warning, Explore-aware advisory.

Modelling conventions:

* Python `float` timestamps and `difflib` ratios are modelled as exact
  rationals (`ℚ`).  All comparisons the hooks perform are against constants
  (`0.55`, `0.6`, window sizes) with operands of tiny denominator, far from the
  10⁻¹⁶ rounding error of IEEE doubles, so the rational model decides every
  comparison exactly as the Python floats do.
* Machine I/O (stdin parse, the state directory, `os` failures) is explicit:
  stdin is an `Option JVal` (`none` = `json.load` raised), the state directory
  is a list of named files, and OS failures of `save_json_state` are an
  explicit oracle argument.
* Strings are Lean `String`s; the hooks lowercase and split ASCII text, and
  the ASCII fragment of Python's `str.lower`, `str.split` and the `\w` class
  is what the embedding implements (all corpus phrases, patterns and inputs of
  interest are ASCII).
-/

namespace TokenGuard

/-! ## difflib.SequenceMatcher

`difflib.SequenceMatcher(None, a, b).ratio()` for the two call shapes the
hooks use: word lists (`check_necessity`) and character lists
(`check_type_switching`).  The embedding follows CPython's `difflib.py`:

* `b2j` is built from `b`; with no junk predicate, the *autojunk* heuristic
  removes "popular" elements from `b2j` when `len(b) >= 200` (an element is
  popular when it occurs more than `len(b) // 100 + 1` times in `b`);
* `find_longest_match` finds, among the maximal blocks whose `b`-side avoids
  popular elements, the longest one, earliest in `a`, then earliest in `b`,
  and then extends it on both ends over arbitrary (possibly popular) equal
  elements;
* `get_matching_blocks` recursively decomposes around that block; `ratio` is
  `2*M/(len a + len b)` where `M` is the total matched size, and `1` when
  both are empty.
-/

/-- Longest common prefix length of two lists, counting only positions whose
`b`-side element satisfies `¬ pop` (the popular elements purged from `b2j`). -/
def commonRunP {α : Type} [DecidableEq α] (pop : α → Bool) : List α → List α → Nat
  | x :: xs, y :: ys => if x = y ∧ ¬ pop y then commonRunP pop xs ys + 1 else 0
  | _, _ => 0

/-- Longest common prefix length of two lists (no popularity filter); used for
the extension phase of `find_longest_match`. -/
def commonRun {α : Type} [DecidableEq α] : List α → List α → Nat :=
  commonRunP (fun _ => false)

/-- The slice `l[lo:hi]` of a list (Python slice semantics for `0 ≤ lo ≤ hi`). -/
def slice {α : Type} (l : List α) (lo hi : Nat) : List α :=
  (l.drop lo).take (hi - lo)

/-- The dynamic-programming phase of `find_longest_match` on `a[alo:ahi]`,
`b[blo:bhi]`: the longest block matching with non-popular `b`-elements,
ties resolved to the earliest start in `a`, then in `b` (this is what the
`j2len` scan with its strict `k > bestsize` test computes).  Returns
`(besti, bestj, bestsize)`. -/
def flmBest {α : Type} [DecidableEq α] (pop : α → Bool) (a b : List α)
    (alo ahi blo bhi : Nat) : Nat × Nat × Nat :=
  (List.range (ahi - alo)).foldl (fun best di =>
    (List.range (bhi - blo)).foldl (fun best dj =>
      let i := alo + di
      let j := blo + dj
      let k := commonRunP pop (slice a i ahi) (slice b j bhi)
      if best.2.2 < k then (i, j, k) else best) best)
    (alo, blo, 0)

/-- `find_longest_match` with an empty junk set: the DP phase, then the two
extension loops that absorb equal elements (popular ones included) on both
ends of the best block.  The two `bjunk`-guarded loops of the source are
no-ops because the hooks never pass an `isjunk` predicate. -/
def findLongestMatch {α : Type} [DecidableEq α] (pop : α → Bool) (a b : List α)
    (alo ahi blo bhi : Nat) : Nat × Nat × Nat :=
  let best := flmBest pop a b alo ahi blo bhi
  let bi := best.1
  let bj := best.2.1
  let bs := best.2.2
  let back := commonRun (slice a alo bi).reverse (slice b blo bj).reverse
  let fwd := commonRun (slice a (bi + bs) ahi) (slice b (bj + bs) bhi)
  (bi - back, bj - back, bs + back + fwd)

/-- Total size `M` of the matching blocks of `get_matching_blocks`, computed by
the recursive decomposition around `find_longest_match`.  `fuel` is a bound on
the recursion depth (each level strictly shrinks the interval sum, so
`(ahi - alo) + (bhi - blo) + 1` always suffices); it only makes the structural
recursion explicit and never runs out when `matchTotal` supplies it. -/
def matchTotalF {α : Type} [DecidableEq α] (pop : α → Bool) (a b : List α) :
    Nat → Nat → Nat → Nat → Nat → Nat
  | 0, _, _, _, _ => 0
  | fuel + 1, alo, ahi, blo, bhi =>
    let m := findLongestMatch pop a b alo ahi blo bhi
    let bi := m.1
    let bj := m.2.1
    let bs := m.2.2
    if bs = 0 then 0
    else matchTotalF pop a b fuel alo bi blo bj + bs +
         matchTotalF pop a b fuel (bi + bs) ahi (bj + bs) bhi

/-- Autojunk's popularity test on `b`: with no junk predicate,
`SequenceMatcher.__chain_b` purges from `b2j` every element occurring more
than `len(b) // 100 + 1` times, but only when `len(b) >= 200`. -/
def isPopular {α : Type} [DecidableEq α] (b : List α) (x : α) : Bool :=
  200 ≤ b.length ∧ b.length / 100 + 1 < b.count x

/-- Total matched size `M` for the full sequences. -/
def matchTotal {α : Type} [DecidableEq α] (a b : List α) : Nat :=
  matchTotalF (isPopular b) a b (a.length + b.length + 1) 0 a.length 0 b.length

/-- `SequenceMatcher(None, a, b).ratio()`, as an exact rational:
`2*M / (len a + len b)`, and `1` when both sequences are empty. -/
def ratioQ {α : Type} [DecidableEq α] (a b : List α) : ℚ :=
  if a.length + b.length = 0 then 1
  else (2 * matchTotal a b : ℚ) / (a.length + b.length : ℚ)

/-! ## Python string primitives (ASCII fragment) -/

/-- `str.lower` on an ASCII character. -/
def pyLowerChar (c : Char) : Char :=
  if 'A' ≤ c ∧ c ≤ 'Z' then Char.ofNat (c.toNat + 32) else c

/-- `str.lower` (ASCII fragment). -/
def pyLower (s : String) : String := String.mk (s.toList.map pyLowerChar)

/-- Whether the first list occurs literally at the head of the second. -/
def matchesFrom : List Char → List Char → Bool
  | [], _ => true
  | _ :: _, [] => false
  | w :: ws, c :: cs => w = c && matchesFrom ws cs

/-- `s.startswith(pre)`. -/
def pyStartsWith (s pre : String) : Bool := matchesFrom pre.toList s.toList

/-- Python `str.split()` whitespace: the six ASCII whitespace characters. -/
def isPySpace (c : Char) : Bool :=
  c = ' ' ∨ c = '\t' ∨ c = '\n' ∨ c = '\x0d' ∨ c = '\x0b' ∨ c = '\x0c'

/-- Worker for `pySplit`: `acc` holds the current word, reversed. -/
def pySplitAux : List Char → List Char → List String
  | [], acc => if acc.isEmpty then [] else [String.mk acc.reverse]
  | c :: cs, acc =>
    if isPySpace c then
      if acc.isEmpty then pySplitAux cs []
      else String.mk acc.reverse :: pySplitAux cs []
    else pySplitAux cs (c :: acc)

/-- Python `str.split()` with no argument: split on runs of whitespace,
discarding empty words. -/
def pySplit (s : String) : List String := pySplitAux s.toList []

/-- Python's regex `\w` class (ASCII fragment): letters, digits, underscore. -/
def isWordChar (c : Char) : Bool := c.isAlphanum || c = '_'

/-- Whether position `i` of `s` holds a word character (out of range counts as
non-word, which is how `\b` treats the string ends). -/
def wcAt (s : List Char) (i : Nat) : Bool :=
  match s.get? i with
  | some c => isWordChar c
  | none => false

/-- The regex `\b` assertion at position `i` (between `s[i-1]` and `s[i]`). -/
def boundaryAt (s : List Char) (i : Nat) : Bool :=
  if i = 0 then wcAt s 0 else wcAt s i ≠ wcAt s (i - 1)

/-- `\bw\b` at position `i`: literal occurrence flanked by word boundaries. -/
def matchWordAt (s w : List Char) (i : Nat) : Bool :=
  matchesFrom w (s.drop i) && boundaryAt s i && boundaryAt s (i + w.length)

/-- No newline inside `s[lo:hi]` — regex `.` does not match `\n`. -/
def noNewlineSeg (s : List Char) (lo hi : Nat) : Bool :=
  (slice s lo hi).all (· ≠ '\n')

/-- `re.search(r'\b(a₁|…)\b.*\b(b₁|…)\b', s) is not None`: some alternative of
`A` occurs as a whole word, and some alternative of `B` occurs as a whole word
at or after its end, with no newline in between (all ten
`DIRECT_TOOL_PATTERNS` have exactly this two-part shape; `files?` and
`exists?` are expanded into their two alternatives). -/
def searchPairPattern (A B : List String) (s : String) : Bool :=
  let cs := s.toList
  (List.range (cs.length + 1)).any fun i =>
    A.any fun a =>
      let w := a.toList
      matchWordAt cs w i &&
      (List.range (cs.length + 1)).any fun k =>
        decide (i + w.length ≤ k) && noNewlineSeg cs (i + w.length) k &&
        B.any fun b => matchWordAt cs b.toList k

/-! ## The necessity classifier (`check_necessity`) -/

/-- `DIRECT_TOOL_PATTERNS` of `token-guard.py`: for each regex, the two
alternative lists, the suggestion, and the pattern name, in source order. -/
def DIRECT_TOOL_PATTERNS : List (List String × List String × String × String) :=
  [ (["search", "find", "grep", "look for", "locate"],
     ["file", "function", "class", "import", "usage", "pattern"],
     "Use Grep to search for code patterns directly.", "search_grep"),
    (["read"], ["file", "config", "settings", "code"],
     "Use Read tool to read files directly.", "read_file"),
    (["check", "verify", "confirm"],
     ["exist", "exists", "status", "version", "content"],
     "Use Grep or Bash to check directly.", "check_verify"),
    (["edit", "fix", "change", "update", "modify"],
     ["line", "bug", "typo", "value"],
     "Use Read + Edit to fix directly.", "edit_fix"),
    (["analyze", "look at", "examine", "inspect"],
     ["file", "code", "function", "method"],
     "Use Read to analyze the file directly.", "analyze_inspect"),
    (["what does"], ["function", "method", "class", "file", "module"],
     "Use Read to understand the code directly.", "what_does"),
    (["list", "show", "display"],
     ["files", "directories", "imports", "dependencies"],
     "Use Grep or Glob to list matches directly.", "list_show"),
    (["count", "how many"],
     ["files", "functions", "classes", "tests", "lines"],
     "Use Grep with count mode to count directly.", "count_how_many"),
    (["compare", "diff"], ["file", "files", "version", "versions"],
     "Use Read on both files or Bash diff directly.", "compare_diff"),
    (["run", "execute", "test"], ["script", "command", "test"],
     "Use Bash to run directly.", "run_execute") ]

/-- `CANONICAL_DIRECT_TASKS`: `(canonical_description, pattern_name,
suggestion)`, in source order. -/
def CANONICAL_DIRECT_TASKS : List (String × String × String) :=
  [ ("search for function in the codebase", "search_grep",
     "Use Grep to search for code patterns directly."),
    ("find where this function is called", "search_grep",
     "Use Grep to search for code patterns directly."),
    ("locate the definition of this class", "search_grep",
     "Use Grep to search for code patterns directly."),
    ("grep for all usages of this import", "search_grep",
     "Use Grep to search for code patterns directly."),
    ("find all references to this variable", "search_grep",
     "Use Grep to search for code patterns directly."),
    ("read the config file and understand it", "read_file",
     "Use Read tool to read files directly."),
    ("look at the contents of this module", "read_file",
     "Use Read tool to read files directly."),
    ("open the file and check what it does", "read_file",
     "Use Read tool to read files directly."),
    ("examine this source code file", "read_file",
     "Use Read tool to read files directly."),
    ("read through the settings and configuration", "read_file",
     "Use Read tool to read files directly."),
    ("check if this file exists and verify contents", "check_verify",
     "Use Grep or Bash to check directly."),
    ("verify the version number in package json", "check_verify",
     "Use Grep or Bash to check directly."),
    ("confirm that the dependency is installed", "check_verify",
     "Use Grep or Bash to check directly."),
    ("check the status of the git repository", "check_verify",
     "Use Grep or Bash to check directly."),
    ("see if this environment variable is set", "check_verify",
     "Use Grep or Bash to check directly."),
    ("fix the typo in this line of code", "edit_fix",
     "Use Read + Edit to fix directly."),
    ("change this value in the config file", "edit_fix",
     "Use Read + Edit to fix directly."),
    ("update the version number in the file", "edit_fix",
     "Use Read + Edit to fix directly."),
    ("modify this single function to fix the bug", "edit_fix",
     "Use Read + Edit to fix directly."),
    ("edit the import statement at the top", "edit_fix",
     "Use Read + Edit to fix directly."),
    ("analyze this file and tell me what it does", "analyze_inspect",
     "Use Read to analyze the file directly."),
    ("look at this function and explain it", "analyze_inspect",
     "Use Read to analyze the file directly."),
    ("inspect the error handling in this module", "analyze_inspect",
     "Use Read to analyze the file directly."),
    ("examine how this class is structured", "analyze_inspect",
     "Use Read to analyze the file directly."),
    ("review this code and explain the logic", "analyze_inspect",
     "Use Read to analyze the file directly."),
    ("what does this function do exactly", "what_does",
     "Use Read to understand the code directly."),
    ("explain what this module is responsible for", "what_does",
     "Use Read to understand the code directly."),
    ("understand what this class handles", "what_does",
     "Use Read to understand the code directly."),
    ("figure out what this method returns", "what_does",
     "Use Read to understand the code directly."),
    ("tell me what this file is used for", "what_does",
     "Use Read to understand the code directly."),
    ("list all the files in this directory", "list_show",
     "Use Grep or Glob to list matches directly."),
    ("show me all the imports in this file", "list_show",
     "Use Grep or Glob to list matches directly."),
    ("display all test files in the project", "list_show",
     "Use Grep or Glob to list matches directly."),
    ("find all python files in this folder", "list_show",
     "Use Grep or Glob to list matches directly."),
    ("list the dependencies in requirements", "list_show",
     "Use Grep or Glob to list matches directly."),
    ("count how many test functions we have", "count_how_many",
     "Use Grep with count mode to count directly."),
    ("how many files are in this directory", "count_how_many",
     "Use Grep with count mode to count directly."),
    ("count the number of classes in the project", "count_how_many",
     "Use Grep with count mode to count directly."),
    ("how many lines of code in this file", "count_how_many",
     "Use Grep with count mode to count directly."),
    ("count all the todo comments in the codebase", "count_how_many",
     "Use Grep with count mode to count directly."),
    ("compare these two files and show differences", "compare_diff",
     "Use Read on both files or Bash diff directly."),
    ("diff the current version against the previous", "compare_diff",
     "Use Read on both files or Bash diff directly."),
    ("check what changed between these two files", "compare_diff",
     "Use Read on both files or Bash diff directly."),
    ("compare the old and new configuration files", "compare_diff",
     "Use Read on both files or Bash diff directly."),
    ("see the differences in these two modules", "compare_diff",
     "Use Read on both files or Bash diff directly."),
    ("run the test suite and check results", "run_execute",
     "Use Bash to run directly."),
    ("execute this python script and see output", "run_execute",
     "Use Bash to run directly."),
    ("run the linter on this file", "run_execute",
     "Use Bash to run directly."),
    ("execute the build command for the project", "run_execute",
     "Use Bash to run directly."),
    ("run this shell command and report the output", "run_execute",
     "Use Bash to run directly.") ]

/-- `FUZZY_THRESHOLD = 0.55`. -/
def FUZZY_THRESHOLD : ℚ := 11 / 20

/-- The fuzzy pass of `check_necessity`: fold the canonical bank keeping the
strictly best `(score, (suggestion, pattern_name))`. -/
def necessityFuzzyBest (input_words : List String) : ℚ × Option (String × String) :=
  CANONICAL_DIRECT_TASKS.foldl (fun best c =>
    let score := ratioQ input_words (pySplit c.1)
    if best.1 < score then (score, some (c.2.2, c.2.1)) else best)
    ((0 : ℚ), none)

/-- `check_necessity(description, prompt) → (should_block, suggestion,
pattern_name)`: regex fast path in pattern order, then the word-level fuzzy
pass over the first 200 characters. -/
def check_necessity (description prompt : String) : Bool × String × String :=
  let combined := pyLower (description ++ " " ++ prompt)
  match DIRECT_TOOL_PATTERNS.find? (fun p => searchPairPattern p.1 p.2.1 combined) with
  | some p => (true, p.2.2.1, p.2.2.2)
  | none =>
    let input_words := pySplit (combined.take 200)
    let best := necessityFuzzyBest input_words
    match best.2 with
    | some m => if FUZZY_THRESHOLD ≤ best.1 then (true, m.1, "fuzzy_" ++ m.2)
                else (false, "", "")
    | none => (false, "", "")

/-! ## Session state, configuration, payloads -/

/-- One entry of `state["agents"]`.  `team` is the optional `"team"` key
(present only for team spawns); `target_dirs` is the optional `"target_dirs"`
key (present only for Explore agents whose prompt yielded at least one
directory — the source omits the key on an empty extraction). -/
structure AgentRec where
  type : String
  description : String
  timestamp : ℚ
  team : Option String := none
  target_dirs : Option (List String) := none
  deriving DecidableEq, Repr

/-- One entry of `state["blocked_attempts"]`. -/
structure BlockedRec where
  type : String
  description : String
  timestamp : ℚ
  deriving DecidableEq, Repr

/-- The spawn guard's per-session state file. -/
structure GuardState where
  agent_count : Int
  agents : List AgentRec
  blocked_attempts : List BlockedRec
  deriving DecidableEq, Repr

/-- `default_state()`. -/
def default_state : GuardState :=
  { agent_count := 0, agents := [], blocked_attempts := [] }

/-- The coerced configuration produced by `load_config()` (all integer fields
already passed through `_safe_int`; the two sets are kept as lists). -/
structure Config where
  max_agents : Int
  parallel_window_seconds : Int
  global_cooldown_seconds : Int
  max_per_subagent_type : Int
  state_ttl_hours : Int
  audit_log : Bool
  one_per_session : List String
  always_allowed : List String
  deriving Repr

/-- `DEFAULT_CONFIG` of `hook_utils.py`. -/
def DEFAULT_CONFIG : Config where
  max_agents := 5
  parallel_window_seconds := 30
  global_cooldown_seconds := 5
  max_per_subagent_type := 1
  state_ttl_hours := 24
  audit_log := true
  one_per_session := ["Explore", "master-coder", "master-researcher",
                      "master-architect", "master-workflow", "Plan"]
  always_allowed := ["claude-code-guide", "statusline-setup", "haiku"]

/-- `BLOCKED_ATTEMPTS_TTL = 300`. -/
def BLOCKED_ATTEMPTS_TTL : ℚ := 300

/-- The fields of `tool_input` the spawn guard consumes, typed as §6 of the
host contract sends them (strings; `resume` is the truthiness of the
`"resume"` value; `team_name = none` models an absent key — an empty-string
value is falsy and behaves identically in every use). -/
structure TaskInput where
  subagent_type : String := ""
  description : String := ""
  prompt : String := ""
  resume : Bool := false
  team_name : Option String := none
  model : String := ""
  deriving Repr

/-- Truthiness of `tool_input.get("team_name")`. -/
def TaskInput.teamTruthy (p : TaskInput) : Bool :=
  match p.team_name with
  | some t => t ≠ ""
  | none => false

/-- Truthiness of `agent.get("team")` (rule R7 skips team agents). -/
def AgentRec.teamTruthy (a : AgentRec) : Bool :=
  match a.team with
  | some t => t ≠ ""
  | none => false

/-- Filesystem facts `extract_target_dirs` consults: the `os.path.isdir`
oracle and the home directory `~` expands to. -/
structure Env where
  isdir : String → Bool
  home : String

/-! ## `check_type_switching` -/

/-- `check_type_switching(state, description, subagent_type)`: the first
recorded blocked attempt whose lowercased description has
`SequenceMatcher.ratio() > 0.6` against the lowercased new description
(character-level: the source passes the two strings, not word lists) and
whose type differs; returns `(True, attempt type)` on a hit. -/
def check_type_switching (st : GuardState) (description subagent_type : String) :
    Bool × String :=
  match st.blocked_attempts.find? (fun a =>
      (3 / 5 : ℚ) < ratioQ (pyLower description).toList (pyLower a.description).toList
      ∧ a.type ≠ subagent_type) with
  | some a => (true, a.type)
  | none => (false, "")

/-! ## `extract_target_dirs` -/

/-- `[^\s\n,]` — the character class of a path token. -/
def isPathChar (c : Char) : Bool := ¬ isPySpace c ∧ c ≠ ','

/-- The maximal run of path characters starting at position `i`. -/
def runFrom (s : List Char) (i : Nat) : List Char :=
  (s.drop i).takeWhile isPathChar

/-- Length of the maximal whitespace run starting at position `i` (`\s*`). -/
def wsRunLen (s : List Char) (i : Nat) : Nat :=
  ((s.drop i).takeWhile isPySpace).length

/-- The capture of `~?/[^\s\n,]+` anchored at `c0`, if any: the maximal path
run there, which must begin `/x` or `~/x`.  Returns the capture and the match
end.  (The `+` is greedy, so the capture always extends to the end of the
run.) -/
def pathCapAt (s : List Char) (c0 : Nat) : Option (List Char × Nat) :=
  let run := runFrom s c0
  if (run.head? = some '/' ∧ 2 ≤ run.length) ∨
     (run.take 2 = ['~', '/'] ∧ 3 ≤ run.length) then
    some (run, c0 + run.length)
  else none

/-- The capture of `~/[^\s\n,]+` anchored at `c0`. -/
def tildeCapAt (s : List Char) (c0 : Nat) : Option (List Char × Nat) :=
  let run := runFrom s c0
  if run.take 2 = ['~', '/'] ∧ 3 ≤ run.length then some (run, c0 + run.length)
  else none

/-- The capture of `/[^\s\n,]+/[^\s\n,]+` anchored at `c0`: the maximal path
run, which must start with `/` and contain an interior `/` with non-empty
path text on both sides. -/
def multiSegCapAt (s : List Char) (c0 : Nat) : Option (List Char × Nat) :=
  let run := runFrom s c0
  if run.head? = some '/' ∧
     (List.range run.length).any (fun k =>
       2 ≤ k ∧ k + 2 ≤ run.length ∧ run.get? k = some '/') then
    some (run, c0 + run.length)
  else none

/-- Pattern 1, `(?:START:\s*)(~?/[^\s\n,]+)`, as a match attempt at
position `i`. -/
def p1MatchAt (s : List Char) (i : Nat) : Option (List Char × Nat) :=
  if matchesFrom "START:".toList (s.drop i) then
    pathCapAt s (i + 6 + wsRunLen s (i + 6))
  else none

/-- `(?:^|\s)` then a capture: at position 0 the `^` branch is tried first
(capture at 0), falling back to the `\s` branch; elsewhere `s[i]` must be
whitespace and the capture starts at `i + 1`. -/
def anchoredMatchAt (cap : List Char → Nat → Option (List Char × Nat))
    (s : List Char) (i : Nat) : Option (List Char × Nat) :=
  if i = 0 then
    match cap s 0 with
    | some r => some r
    | none =>
      match s.get? 0 with
      | some c => if isPySpace c then cap s 1 else none
      | none => none
  else
    match s.get? i with
    | some c => if isPySpace c then cap s (i + 1) else none
    | none => none

/-- Pattern 2, `(?:^|\s)(~/[^\s\n,]+)`. -/
def p2MatchAt (s : List Char) (i : Nat) : Option (List Char × Nat) :=
  anchoredMatchAt tildeCapAt s i

/-- Pattern 3, `(?:^|\s)(/[^\s\n,]+/[^\s\n,]+)`. -/
def p3MatchAt (s : List Char) (i : Nat) : Option (List Char × Nat) :=
  anchoredMatchAt multiSegCapAt s i

/-- The leftmost match of `m` at a position in `[pos, s.length]`. -/
def firstMatchFrom (m : List Char → Nat → Option (List Char × Nat))
    (s : List Char) (pos : Nat) : Option (List Char × Nat) :=
  (List.range (s.length + 1 - pos)).findSome? (fun d => m s (pos + d))

/-- `re.finditer` capture list: scan left to right, resuming after each
match's end.  Every match here is at least one character wide, so
`s.length + 1` rounds of fuel always cover the scan. -/
def finditerCaps (m : List Char → Nat → Option (List Char × Nat))
    (s : List Char) : Nat → Nat → List (List Char)
  | _, 0 => []
  | pos, fuel + 1 =>
    match firstMatchFrom m s pos with
    | none => []
    | some (cap, e) => cap :: finditerCaps m s e fuel

/-- All captures of one pattern over `s`, in order. -/
def allCaps (m : List Char → Nat → Option (List Char × Nat))
    (s : List Char) : List (List Char) :=
  finditerCaps m s 0 (s.length + 1)

/-- `str.rstrip(c)`: drop all trailing copies of `c`. -/
def rstripChar (s : List Char) (c : Char) : List Char :=
  (s.reverse.dropWhile (· = c)).reverse

/-- `os.path.expanduser` on the shapes the captures produce (`~` or `~/…`). -/
def expanduser (home : String) (p : String) : String :=
  if p = "~" then home
  else if pyStartsWith p "~/" then home ++ String.mk (p.toList.drop 1)
  else p

/-- `os.path.splitext(path)[1] == ""`: the basename has no dot beyond its
leading-dot run. -/
def splitextNoExt (p : String) : Bool :=
  let base := ((p.toList.reverse.takeWhile (· ≠ '/')).reverse)
  let lead := (base.takeWhile (· = '.')).length
  ¬ (List.range base.length).any (fun idx => lead ≤ idx ∧ base.get? idx = some '.')

/-- `extract_target_dirs(prompt)`: run the three patterns in order, strip
trailing `/` then trailing `)` from each capture, expand `~`, and keep (once)
every path with no file extension or naming an existing directory. -/
def extract_target_dirs (env : Env) (prompt : String) : List String :=
  let s := prompt.toList
  let caps := allCaps p1MatchAt s ++ allCaps p2MatchAt s ++ allCaps p3MatchAt s
  caps.foldl (fun dirs cap =>
    let path := expanduser env.home (String.mk (rstripChar (rstripChar cap '/') ')'))
    if (splitextNoExt path || env.isdir path) ∧ path ∉ dirs then dirs ++ [path]
    else dirs) []

/-- The fuzzy fold of `check_necessity`, with each canonical's
already-computed score carried alongside it.  Proof-side companion of
`necessityFuzzyBest` (see `necessityFuzzyBest_eval`): it lets the fifty
`SequenceMatcher` ratios be evaluated in one flat pass and the fold over the
resulting literals evaluated separately, which keeps every kernel reduction
shallow. -/
def fuzzyFoldWith (init : ℚ × Option (String × String)) :
    List ((String × String × String) × ℚ) → ℚ × Option (String × String)
  | [] => init
  | (c, v) :: rest =>
    fuzzyFoldWith (if init.1 < v then (v, some (c.2.2, c.2.1)) else init) rest

/-! ## The spawn-guard rule cascade (`token-guard.py main`, Task path)

`spawnPipeline` models `main()` from the point where the payload has passed
the triage (`tool_name = "Task"`, valid session id) down to the exit: the
always-allowed bypass, resume detection, the `blocked_attempts` prune, the
team path, rules R1–R7, and the allow path.  It returns the outcome and the
state that `save_json_state` was asked to write — `none` on the paths that
never save (bypass, resume, and the team-cap block, which calls `block()`
without saving, so its prune is not persisted). -/

/-- The possible outcomes of one gated Task event, tagged by the audit
reason / stderr message the source produces. -/
inductive SpawnRes where
  | allowBypass
  | allowResume
  | blockTeamCap
  | allowTeam
  | blockOnePerSession
  | blockMaxPerType
  | blockSessionCap
  | blockParallelWindow
  | blockNecessity (pattern : String)
  | blockTypeSwitch (prevType : String)
  | blockCooldown
  | allow
  deriving DecidableEq, Repr

/-- Exit code of an outcome: `0` allows the spawn, `2` blocks it. -/
def SpawnRes.exit : SpawnRes → Nat
  | allowBypass | allowResume | allowTeam | allow => 0
  | _ => 2

/-- The `blocked_attempts` prune performed at the top of the locked section
(five-minute TTL). -/
def pruneAttempts (now : ℚ) (st : GuardState) : GuardState :=
  { st with blocked_attempts :=
      st.blocked_attempts.filter (fun a => now - a.timestamp < BLOCKED_ATTEMPTS_TTL) }

/-- The state every rule block persists: the (already pruned) state plus one
new blocked-attempt record. -/
def recordBlocked (now : ℚ) (p : TaskInput) (st : GuardState) : GuardState :=
  { st with blocked_attempts :=
      st.blocked_attempts ++
        [{ type := p.subagent_type, description := p.description, timestamp := now }] }

/-- The rule cascade R1–R7 over the pruned state: the first rule that fires,
if any.  R1 (one-per-session types) and R2 (per-type cap) form one if/elif,
so R2 only applies to types outside `one_per_session`. -/
def ruleHit (cfg : Config) (now : ℚ) (p : TaskInput)
    (st : GuardState) : Option SpawnRes :=
  if p.subagent_type ∈ cfg.one_per_session ∧
     ¬ (st.agents.filter (fun a => a.type = p.subagent_type)).isEmpty then
    some .blockOnePerSession
  else if p.subagent_type ∉ cfg.one_per_session ∧
          cfg.max_per_subagent_type ≤
            ((st.agents.filter (fun a => a.type = p.subagent_type)).length : Int) then
    some .blockMaxPerType
  else if cfg.max_agents ≤ st.agent_count then   -- R3: session cap
    some .blockSessionCap
  else if ¬ (st.agents.filter (fun a =>
      a.type = p.subagent_type ∧
      now - a.timestamp < (cfg.parallel_window_seconds : ℚ))).isEmpty then  -- R4
    some .blockParallelWindow
  else if (check_necessity p.description p.prompt).1 then                   -- R5
    some (.blockNecessity (check_necessity p.description p.prompt).2.2)
  else if (check_type_switching st p.description p.subagent_type).1 then    -- R6
    some (.blockTypeSwitch (check_type_switching st p.description p.subagent_type).2)
  else if (((st.agents.filter (fun a => ¬ a.teamTruthy)).map
      (fun a => a.timestamp)).max?.elim false
      (fun last => now - last < (cfg.global_cooldown_seconds : ℚ))) then     -- R7
    some .blockCooldown
  else none

/-- The agent record the allow path appends: for an Explore agent whose
prompt yields directories, they are stored under `target_dirs`; the key is
omitted otherwise. -/
def allowRecord (env : Env) (now : ℚ) (p : TaskInput) : AgentRec :=
  let td := if p.subagent_type = "Explore" then extract_target_dirs env p.prompt else []
  { type := p.subagent_type, description := p.description, timestamp := now,
    target_dirs := if td.isEmpty then none else some td }

/-- One gated Task event against the session state (see section header). -/
def spawnPipeline (cfg : Config) (env : Env) (now : ℚ) (p : TaskInput)
    (st : GuardState) : SpawnRes × Option GuardState :=
  if p.subagent_type ∈ cfg.always_allowed then (.allowBypass, none)
  else if p.resume then (.allowResume, none)
  else if p.teamTruthy then
    if cfg.max_agents ≤ (pruneAttempts now st).agent_count then (.blockTeamCap, none)
    else
      (.allowTeam, some { pruneAttempts now st with
        agent_count := (pruneAttempts now st).agent_count + 1
        agents := (pruneAttempts now st).agents ++
          [{ type := p.subagent_type, description := p.description,
             timestamp := now, team := p.team_name }] })
  else
    match ruleHit cfg now p (pruneAttempts now st) with
    | some r => (r, some (recordBlocked now p (pruneAttempts now st)))
    | none =>
      (.allow, some { pruneAttempts now st with
        agent_count := (pruneAttempts now st).agent_count + 1
        agents := (pruneAttempts now st).agents ++ [allowRecord env now p] })

/-- One spawn-guard event for a session: its wall-clock time, its payload,
and whether this invocation's `save_json_state` succeeded (a failed save is
non-fatal and leaves the file as it was). -/
structure SpawnEvent where
  now : ℚ
  payload : TaskInput
  saveOk : Bool := true

/-- The session file after one spawn-guard event. -/
def spawnSessionStep (cfg : Config) (env : Env) (st : GuardState) (e : SpawnEvent) :
    GuardState :=
  match (spawnPipeline cfg env e.now e.payload st).2 with
  | some st' => if e.saveOk then st' else st
  | none => st

/-- The session file after a whole sequence of spawn-guard events, starting
from the empty (default) state. -/
def spawnSessionRun (cfg : Config) (env : Env) (events : List SpawnEvent) :
    GuardState :=
  events.foldl (spawnSessionStep cfg env) default_state

/-! ## The read guard (`read-efficiency-guard.py`) -/

/-- `SEQUENTIAL_THRESHOLD = 4` (warn). -/
def SEQUENTIAL_THRESHOLD : Nat := 4

/-- `ESCALATION_THRESHOLD = 15` (block). -/
def ESCALATION_THRESHOLD : Nat := 15

/-- `DUPLICATE_FILE_LIMIT = 3`. -/
def DUPLICATE_FILE_LIMIT : Nat := 3

/-- `SEQUENTIAL_WINDOW = 120` seconds. -/
def SEQUENTIAL_WINDOW : ℚ := 120

/-- `READ_TTL = 300` seconds. -/
def READ_TTL : ℚ := 300

/-- One entry of the read state's `reads` list; `blocked` records the
`"blocked": True` marker (absent on allowed reads, which is falsy wherever it
could be read). -/
structure ReadRec where
  path : String
  timestamp : ℚ
  blocked : Bool := false
  deriving DecidableEq, Repr

/-- The read guard's `{session}-reads.json` state. -/
structure ReadState where
  reads : List ReadRec
  last_sequential_warn : ℚ
  deriving DecidableEq, Repr

/-- `default_read_state()`. -/
def default_read_state : ReadState := { reads := [], last_sequential_warn := 0 }

/-- The stderr messages the read guard can emit. -/
inductive ReadMsg where
  | dupBlock
  | seqBlock
  | seqWarn
  | exploreWarn
  deriving DecidableEq, Repr

/-- Exit code and emitted messages of one read-guard event. -/
structure ReadOutcome where
  exit : Nat
  msgs : List ReadMsg
  deriving DecidableEq, Repr

/-- One gated Read event: the TTL prune, the duplicate-path block, the
sequential escalation/warning, the Explore advisory, and the state the guard
saves.  `explore_dirs` is what `get_explore_dirs` returned for this
session. -/
def readStep (now : ℚ) (file_path : String) (explore_dirs : List String)
    (st : ReadState) : ReadOutcome × ReadState :=
  let reads := st.reads.filter (fun r => now - r.timestamp < READ_TTL)
  let path_count := (reads.filter (fun r => r.path = file_path)).length + 1
  if DUPLICATE_FILE_LIMIT ≤ path_count then
    (⟨2, [.dupBlock]⟩,
     { st with reads := reads ++ [{ path := file_path, timestamp := now, blocked := true }] })
  else
    let recent := reads.filter (fun r => now - r.timestamp < SEQUENTIAL_WINDOW)
    let recent_count := recent.length + 1
    if ESCALATION_THRESHOLD ≤ recent_count then
      (⟨2, [.seqBlock]⟩,
       { st with reads := reads ++ [{ path := file_path, timestamp := now, blocked := true }] })
    else
      let warned := SEQUENTIAL_THRESHOLD ≤ recent_count ∧
        SEQUENTIAL_WINDOW < now - st.last_sequential_warn
      let exploreHit := explore_dirs.any (fun d =>
        pyStartsWith file_path (d ++ "/") || file_path = d)
      (⟨0, (if warned then [.seqWarn] else []) ++
            (if exploreHit then [.exploreWarn] else [])⟩,
       { reads := reads ++ [{ path := file_path, timestamp := now }]
         last_sequential_warn := if warned then now else st.last_sequential_warn })

/-- `get_explore_dirs`: the deduplicated `target_dirs` of the session's
Explore agents, read from the spawn guard's session file (`none` models a
missing or unreadable file, which yields `[]`). -/
def get_explore_dirs (guardFile : Option GuardState) : List String :=
  match guardFile with
  | none => []
  | some g =>
    (g.agents.filter (fun a => a.type = "Explore")).foldl (fun dirs a =>
      (a.target_dirs.getD []).foldl (fun dirs d =>
        if d ∉ dirs then dirs ++ [d] else dirs) dirs) []

/-! ## The state store (`hook_utils.py`)

`load_json_state` and `save_json_state`, over an abstract state type and an
explicit model of the OS outcomes the source's `try`/`except` structure
distinguishes.  Totality of these functions is the embedding of "never
raises": every exception the source catches is a constructor here. -/

/-- What a state file can hold when `load_json_state` opens it:
`FileNotFoundError`, an `OSError` on open/read, a `json.JSONDecodeError`,
or a well-formed value. -/
inductive JFile (α : Type) where
  | absent
  | unreadable
  | malformed
  | parsed (val : α)
  deriving DecidableEq, Repr

/-- `load_json_state(path, default_factory)`: the parsed content, or the
default on every failure. -/
def load_json_state {α : Type} (f : JFile α) (default_factory : Unit → α) : α :=
  match f with
  | .parsed v => v
  | _ => default_factory ()

/-- The OS outcomes `save_json_state` distinguishes: success; `mkstemp`
failing (the outer `except OSError`, before any temp file exists); and the
write or `os.replace` failing (the inner `except Exception`), whose cleanup
`os.unlink(tmp_path)` either succeeds or raises an `OSError` that the
source swallows with `pass`. -/
inductive SaveOracle where
  | ok
  | mkstempFail
  | innerFail (unlinkOk : Bool)
  deriving DecidableEq, Repr

/-- Result of `save_json_state`: the returned boolean, the target file
afterwards, and whether an orphaned `.tmp` file is left behind. -/
structure SaveResult (α : Type) where
  ok : Bool
  target : JFile α
  tmpLeft : Bool
  deriving DecidableEq, Repr

/-- `save_json_state(path, state)`: write the state to a fresh temp file in
the target's directory, `os.replace` it over the target, return `True`; on
any failure return `False` with the target untouched, unlinking the temp
file when the unlink itself does not fail. -/
def save_json_state {α : Type} (target : JFile α) (state : α) (o : SaveOracle) :
    SaveResult α :=
  match o with
  | .ok => { ok := true, target := .parsed state, tmpLeft := false }
  | .mkstempFail => { ok := false, target := target, tmpLeft := false }
  | .innerFail unlinkOk => { ok := false, target := target, tmpLeft := ¬ unlinkOk }

/-! ## The hook entry points: stdin triage and the state directory

The hooks read one JSON value from stdin.  `Option JVal` models the parse:
`none` is a `json.load` failure (caught: exit 0).  A parsed value that is not
an object makes the subsequent `.get` attribute accesses raise — those
exceptions are not caught anywhere in `main`, so the process dies with a
traceback (exit code 1, neither the allow-0 nor the block-2): `HookExit.uncaught`.

The state directory is a list of named files with modification times.  File
contents are modelled post-parse: `corrupt` stands for anything
`json.load` rejects.  `save_json_state` failures on the spawn path are the
`saveOk` flag of `SpawnEvent`; the entry points below model the saves the
sources attempt as succeeding. -/

/-- A JSON value. -/
inductive JVal where
  | jnull
  | jbool (b : Bool)
  | jnum (q : ℚ)
  | jstr (s : String)
  | jarr (elems : List JVal)
  | jobj (fields : List (String × JVal))

/-- `dict.get(k)` on an object's field list (keys are unique in parsed
JSON; the first binding wins). -/
def jlookup (fields : List (String × JVal)) (k : String) : Option JVal :=
  (fields.find? (fun f => f.1 = k)).map (fun f => f.2)

/-- Python truthiness of a JSON value. -/
def JVal.truthy : JVal → Bool
  | jnull => false
  | jbool b => b
  | jnum q => q ≠ 0
  | jstr s => s ≠ ""
  | jarr l => ¬ l.isEmpty
  | jobj f => ¬ f.isEmpty

/-- Python `v == "lit"` for a JSON value: only equal strings compare equal;
any non-string compares unequal (never raises). -/
def JVal.eqStr : JVal → String → Bool
  | jstr t, s => t = s
  | _, _ => false

/-- `tool_input.get(k, "")` for the string-typed fields of §6 of the host
contract.  A present non-string value is outside the modelled contract and is
coerced to the default. -/
def asStrD (v : Option JVal) (d : String) : String :=
  match v with
  | some (.jstr s) => s
  | some _ => d
  | none => d

/-- `re.match(r'^[A-Za-z0-9_-]{8,64}$', s)`: the session-id character
class. -/
def isSidChar (c : Char) : Bool :=
  ('A' ≤ c ∧ c ≤ 'Z') ∨ ('a' ≤ c ∧ c ≤ 'z') ∨ ('0' ≤ c ∧ c ≤ '9') ∨
  c = '_' ∨ c = '-'

/-- Session-id validation.  Regex `$` also matches just before a final
newline, so a trailing `\n` is tolerated around an otherwise valid core. -/
def validSessionId (s : String) : Bool :=
  let t := if s.toList.getLast? = some '\n' then s.toList.dropLast else s.toList
  8 ≤ t.length ∧ t.length ≤ 64 ∧ t.all isSidChar

/-- Parsed content of a file in the state directory. -/
inductive FileData where
  | corrupt
  | guard (g : GuardState)
  | readsData (r : ReadState)

/-- A file of the state directory. -/
structure SFile where
  name : String
  mtime : ℚ
  data : FileData

/-- `cleanup_stale_state(ttl_hours)`: delete every file whose mtime is older
than the TTL cutoff, sparing the audit log and its backup.  Runs on every
spawn-guard invocation, before stdin is even read. -/
def cleanup_stale_state (ttl_hours : Int) (now : ℚ) (dir : List SFile) : List SFile :=
  dir.filter (fun f =>
    f.name = "audit.jsonl" ∨ f.name = "audit.jsonl.1" ∨
    ¬ (f.mtime < now - (ttl_hours : ℚ) * 3600))

/-- Find a directory entry by name. -/
def findFile (dir : List SFile) (fname : String) : Option SFile :=
  dir.find? (fun f => f.name = fname)

/-- `load_json_state(path, default_state)` for the spawn guard's session
file: missing or corrupt content yields the default. -/
def loadGuard (dir : List SFile) (fname : String) : GuardState :=
  match findFile dir fname with
  | some f =>
    match f.data with
    | .guard g => g
    | _ => default_state
  | none => default_state

/-- The spawn-guard session file as `get_explore_dirs` sees it (`none` when
missing or unreadable, which makes it return `[]`). -/
def guardFile? (dir : List SFile) (fname : String) : Option GuardState :=
  match findFile dir fname with
  | some f =>
    match f.data with
    | .guard g => some g
    | _ => none
  | none => none

/-- `load_json_state(path, default_read_state)` for the read guard. -/
def loadReads (dir : List SFile) (fname : String) : ReadState :=
  match findFile dir fname with
  | some f =>
    match f.data with
    | .readsData r => r
    | _ => default_read_state
  | none => default_read_state

/-- Atomic replace of (or creation of) a file in the directory. -/
def upsert (dir : List SFile) (f : SFile) : List SFile :=
  if dir.any (fun g => g.name = f.name) then
    dir.map (fun g => if g.name = f.name then f else g)
  else dir ++ [f]

/-- How a hook invocation ends: exit 0 (allow), exit 2 (block), or an
uncaught Python exception (process exit 1 — produced when the parsed stdin
value, or a `tool_input` that must be accessed, is not an object; also when a
present `session_id` is not a string, since `re.match` then raises). -/
inductive HookExit where
  | exit0
  | exit2
  | uncaught
  deriving DecidableEq, Repr

/-- `token-guard.py main()`: stale sweep, stdin parse (fail-open), field
extraction, session-id validation (fail-closed), the `Task` filter, then the
rule cascade against the session file, persisting whatever the pipeline
saves. -/
def spawnMain (cfg : Config) (env : Env) (now : ℚ) (dir : List SFile)
    (stdin : Option JVal) : HookExit × List SFile :=
  let dir := cleanup_stale_state cfg.state_ttl_hours now dir
  match stdin with
  | none => (.exit0, dir)
  | some (.jobj fields) =>
    let tool_name := (jlookup fields "tool_name").getD (.jstr "")
    let tool_input := (jlookup fields "tool_input").getD (.jobj [])
    match (jlookup fields "session_id").getD (.jstr "unknown") with
    | .jstr sid =>
      if ¬ validSessionId sid then (.exit2, dir)
      else if ¬ tool_name.eqStr "Task" then (.exit0, dir)
      else
        match tool_input with
        | .jobj ti =>
          let p : TaskInput :=
            { subagent_type := asStrD (jlookup ti "subagent_type") ""
              description := asStrD (jlookup ti "description") ""
              prompt := asStrD (jlookup ti "prompt") ""
              resume := ((jlookup ti "resume").getD .jnull).truthy
              team_name :=
                match jlookup ti "team_name" with
                | some v => if v.truthy then some (asStrD (some v) "") else none
                | none => none
              model := asStrD (jlookup ti "model") "" }
          let fname := sid ++ ".json"
          let res := spawnPipeline cfg env now p (loadGuard dir fname)
          let dir' :=
            match res.2 with
            | some st' => upsert dir ⟨fname, now, .guard st'⟩
            | none => dir
          (if res.1.exit = 0 then .exit0 else .exit2, dir')
        | _ => (.uncaught, dir)
    | _ => (.uncaught, dir)
  | some _ => (.uncaught, dir)

/-- `read-efficiency-guard.py main()`: stdin parse (fail-open), the `Read`
filter, the empty-path bypass, then `readStep` against the session's read
state, with `get_explore_dirs` consulting the spawn guard's file.  The read
guard never validates the session id and never sweeps the directory. -/
def readMain (now : ℚ) (dir : List SFile) (stdin : Option JVal) :
    (HookExit × List ReadMsg) × List SFile :=
  match stdin with
  | none => ((.exit0, []), dir)
  | some (.jobj fields) =>
    let tool_name := (jlookup fields "tool_name").getD (.jstr "")
    let tool_input := (jlookup fields "tool_input").getD (.jobj [])
    let sid := asStrD (jlookup fields "session_id") "unknown"
    if ¬ tool_name.eqStr "Read" then ((.exit0, []), dir)
    else
      match tool_input with
      | .jobj ti =>
        let file_path := asStrD (jlookup ti "file_path") ""
        if file_path = "" then ((.exit0, []), dir)
        else
          let fname := sid ++ "-reads.json"
          let edirs := get_explore_dirs (guardFile? dir (sid ++ ".json"))
          let (out, st') := readStep now file_path edirs (loadReads dir fname)
          ((if out.exit = 0 then .exit0 else .exit2, out.msgs),
           upsert dir ⟨fname, now, .readsData st'⟩)
      | _ => ((.uncaught, []), dir)
  | some _ => ((.uncaught, []), dir)

/-! ## Concrete inputs used by the claims -/

/-- A concrete filesystem environment: no directory exists, home is
`/home/u`. -/
def hostEnv : Env := { isdir := fun _ => false, home := "/home/u" }

/-- The paraphrase of §8: "find where this helper is used across all
files". -/
def c4Desc : String := "find where this helper is used across all files"

/-- The word list the fuzzy pass sees for `c4Desc` with an empty prompt. -/
def c4Words : List String := pySplit ((pyLower (c4Desc ++ " " ++ "")).take 200)

/-- The fifty `SequenceMatcher` ratios of `c4Words` against the canonical
bank, in bank order. -/
def c4Scores : List ℚ :=
  [0, 8 / 15, 2 / 15, 1 / 8, 4 / 15,
   0, 1 / 8, 0, 1 / 7, 0,
   2 / 17, 0, 2 / 15, 0, 1 / 4,
   2 / 17, 1 / 8, 0, 2 / 17, 0,
   1 / 9, 1 / 8, 1 / 8, 4 / 15, 1 / 8,
   2 / 15, 1 / 4, 1 / 7, 2 / 15, 6 / 17,
   1 / 8, 2 / 17, 1 / 4, 1 / 4, 0,
   0, 1 / 8, 0, 2 / 17, 2 / 17,
   1 / 8, 0, 1 / 8, 1 / 8, 0,
   0, 1 / 8, 2 / 15, 0, 2 / 17]

/-- First scenario description of §8. -/
def refactorDesc : String := "refactor authentication across services"

/-- The word list the fuzzy pass sees for `refactorDesc`. -/
def refactorWords : List String := pySplit ((pyLower (refactorDesc ++ " " ++ "")).take 200)

/-- The word list the fuzzy pass sees for the description `"first"`. -/
def firstWords : List String := pySplit ((pyLower ("first" ++ " " ++ "")).take 200)

/-- Fifty zero scores (no shared word with any canonical phrase). -/
def zeroScores : List ℚ := List.replicate 50 0

/-- §8 scenario, t = 0.0: a general-purpose Task. -/
def pRefactor : TaskInput :=
  { subagent_type := "general-purpose", description := refactorDesc }

/-- §8 scenario, t = 0.1: a second general-purpose Task. -/
def pTests : TaskInput :=
  { subagent_type := "general-purpose", description := "write some tests" }

/-- §8 scenario, t = 0.2: the first Explore Task, description "first", no
prompt. -/
def pExplore : TaskInput := { subagent_type := "Explore", description := "first" }

/-- Session state after the t = 0.0 spawn is allowed. -/
def scenarioState1 : GuardState :=
  { agent_count := 1
    agents := [{ type := "general-purpose", description := refactorDesc, timestamp := 0 }]
    blocked_attempts := [] }

/-- Session state after the t = 0.1 spawn is blocked (rule R2). -/
def scenarioState2 : GuardState :=
  { agent_count := 1
    agents := [{ type := "general-purpose", description := refactorDesc, timestamp := 0 }]
    blocked_attempts :=
      [{ type := "general-purpose", description := "write some tests", timestamp := 1 / 10 }] }

/-- The record an allowed lone Explore ("first", empty prompt) produces: no
`team`, and no `target_dirs` key. -/
def c9Record : AgentRec := { type := "Explore", description := "first", timestamp := 0 }

/-- Session state after a lone Explore ("first") is allowed at t = 0. -/
def c9AllowedState : GuardState :=
  { agent_count := 1, agents := [c9Record], blocked_attempts := [] }

/-- §8 scenario event at t = 0.0. -/
def scenEv1 : SpawnEvent := { now := 0, payload := pRefactor }

/-- §8 scenario event at t = 0.1. -/
def scenEv2 : SpawnEvent := { now := 1 / 10, payload := pTests }

/-- A concrete event sequence: seven spawn attempts of distinct types, one of
them a team spawn, spaced ten seconds apart. -/
def wSpawnEvents : List SpawnEvent :=
  [{ now := 0, payload := { subagent_type := "alpha", description := "investigate subsystem alpha" } },
   { now := 10, payload := { subagent_type := "beta", description := "investigate subsystem beta" } },
   { now := 20, payload := { subagent_type := "gamma", description := "investigate subsystem gamma" } },
   { now := 30, payload := { subagent_type := "delta", description := "team work", team_name := some "squad" } },
   { now := 40, payload := { subagent_type := "epsilon", description := "investigate subsystem epsilon" } },
   { now := 50, payload := { subagent_type := "zeta", description := "investigate subsystem zeta" } },
   { now := 60, payload := { subagent_type := "eta", description := "investigate subsystem eta" } }]

/-- Modelled from the spec (§4.6 rule R6 read together with the glossary entry
"Fuzzy similarity: word-list sequence-similarity ratio in [0,1]"): the
*word-level* similarity of two descriptions.  This is the claim's reading,
stated only for comparison with the source's `check_type_switching`, which
passes the two raw strings to `SequenceMatcher` (character-level). -/
def specWordRatio (s t : String) : ℚ :=
  ratioQ (pySplit (pyLower s)) (pySplit (pyLower t))

/-- A state holding one recent blocked attempt of type `Explore` with
description "abcdefgx". -/
def c5State : GuardState :=
  { agent_count := 0, agents := [],
    blocked_attempts :=
      [{ type := "Explore", description := "abcdefgx", timestamp := 0 }] }

/-- The file read three times in the §8 scenario. -/
def wReadPath : String := "/repo/auth.ts"

/-- Read state after the first read of `wReadPath` at t = 0. -/
def wRead1 : ReadState := (readStep 0 wReadPath [] default_read_state).2

/-- Read state after the second read of `wReadPath` at t = 1. -/
def wRead2 : ReadState := (readStep 1 wReadPath [] wRead1).2

/-- Fourteen reads (seven distinct paths, twice each) recorded at t = 100 and
t = 101: one more read within the window escalates. -/
def wSeqReads : ReadState :=
  { reads := ["/f0", "/f1", "/f2", "/f3", "/f4", "/f5", "/f6"].flatMap
      (fun p => [{ path := p, timestamp := 100 }, { path := p, timestamp := 101 }])
    last_sequential_warn := 0 }

/-- Three reads at t = 100 with no warning ever emitted: a fourth read at
t = 130 warns. -/
def wWarnReads : ReadState :=
  { reads := [{ path := "/g0", timestamp := 100 }, { path := "/g1", timestamp := 100 },
              { path := "/g2", timestamp := 100 }]
    last_sequential_warn := 0 }

/-- Whether a parsed JSON value is an object — the only shape on which the
hooks' `.get` calls do not raise. -/
def JVal.isObj : JVal → Bool
  | jobj _ => true
  | _ => false

/-- A stale session-state file: last modified at t = 0, long before the
24-hour TTL cutoff of a sweep at t = 100000. -/
def c2StaleFile : SFile := { name := "old.json", mtime := 0, data := .corrupt }

/-! # Theorems -/

/-! ## Evaluating the necessity classifier -/

/-- The fuzzy fold of `check_necessity` equals `fuzzyFoldWith` once the
per-canonical scores are known. -/
theorem fuzzyFold_eq_fuzzyFoldWith (iw : List String) :
    ∀ (l : List (String × String × String)) (vs : List ℚ)
      (init : ℚ × Option (String × String)),
      l.map (fun c => ratioQ iw (pySplit c.1)) = vs →
      l.foldl (fun best c =>
        let score := ratioQ iw (pySplit c.1)
        if best.1 < score then (score, some (c.2.2, c.2.1)) else best) init =
      fuzzyFoldWith init (l.zip vs) := by
  intro l
  induction l with
  | nil =>
    intro vs init h
    simp only [List.map_nil] at h
    subst h
    simp [fuzzyFoldWith]
  | cons c t ih =>
    intro vs init h
    cases vs with
    | nil => simp at h
    | cons v vt =>
      simp only [List.map_cons, List.cons.injEq] at h
      obtain ⟨h1, h2⟩ := h
      simp only [List.foldl_cons, List.zip_cons_cons, fuzzyFoldWith]
      rw [h1]
      exact ih vt _ h2

/-- `necessityFuzzyBest` through `fuzzyFoldWith`. -/
theorem necessityFuzzyBest_eval (iw : List String) (vs : List ℚ)
    (h : CANONICAL_DIRECT_TASKS.map (fun c => ratioQ iw (pySplit c.1)) = vs) :
    necessityFuzzyBest iw = fuzzyFoldWith ((0 : ℚ), none) (CANONICAL_DIRECT_TASKS.zip vs) := by
  unfold necessityFuzzyBest
  exact fuzzyFold_eq_fuzzyFoldWith iw CANONICAL_DIRECT_TASKS vs ((0 : ℚ), none) h

set_option maxRecDepth 40000 in
/-- The fifty fuzzy scores of the §8 paraphrase. -/
theorem c4Scores_eq :
    CANONICAL_DIRECT_TASKS.map (fun c => ratioQ c4Words (pySplit c.1)) = c4Scores := by
  with_unfolding_all decide

set_option maxRecDepth 40000 in
/-- The best fuzzy score of the §8 paraphrase is `8/15`, from the canonical
phrase "find where this function is called". -/
theorem c4Fuzzy :
    necessityFuzzyBest c4Words =
      (8 / 15, some ("Use Grep to search for code patterns directly.", "search_grep")) := by
  rw [necessityFuzzyBest_eval c4Words c4Scores c4Scores_eq]
  with_unfolding_all decide

set_option maxRecDepth 40000 in
/-- None of the ten regex patterns matches the §8 paraphrase. -/
theorem c4RegexNone :
    DIRECT_TOOL_PATTERNS.find?
      (fun p => searchPairPattern p.1 p.2.1 (pyLower (c4Desc ++ " " ++ ""))) = none := by
  with_unfolding_all decide

set_option maxRecDepth 40000 in
/-- The necessity classifier does not block the §8 paraphrase. -/
theorem check_necessity_c4 : check_necessity c4Desc "" = (false, "", "") := by
  unfold check_necessity
  simp only [c4RegexNone]
  have hw : pySplit ((pyLower (c4Desc ++ " " ++ "")).take 200) = c4Words := rfl
  simp only [hw, c4Fuzzy]
  norm_num [FUZZY_THRESHOLD]

set_option maxRecDepth 40000 in
/-- A fold over fifty zero scores never improves on the initial best. -/
theorem fuzzyFoldWith_zeros :
    fuzzyFoldWith ((0 : ℚ), none) (CANONICAL_DIRECT_TASKS.zip zeroScores) = (0, none) := by
  with_unfolding_all decide

set_option maxRecDepth 40000 in
/-- "refactor authentication across services" shares no word with any
canonical phrase. -/
theorem refactorScores_eq :
    CANONICAL_DIRECT_TASKS.map (fun c => ratioQ refactorWords (pySplit c.1)) = zeroScores := by
  with_unfolding_all decide

set_option maxRecDepth 40000 in
/-- None of the ten regex patterns matches "refactor authentication across
services". -/
theorem refactorRegexNone :
    DIRECT_TOOL_PATTERNS.find?
      (fun p => searchPairPattern p.1 p.2.1 (pyLower (refactorDesc ++ " " ++ ""))) = none := by
  with_unfolding_all decide

set_option maxRecDepth 40000 in
/-- The necessity classifier does not block "refactor authentication across
services". -/
theorem check_necessity_refactor : check_necessity refactorDesc "" = (false, "", "") := by
  unfold check_necessity
  simp only [refactorRegexNone]
  have hw : pySplit ((pyLower (refactorDesc ++ " " ++ "")).take 200) = refactorWords := rfl
  simp only [hw, necessityFuzzyBest_eval refactorWords zeroScores refactorScores_eq,
    fuzzyFoldWith_zeros]

set_option maxRecDepth 40000 in
/-- "first" shares no word with any canonical phrase. -/
theorem firstScores_eq :
    CANONICAL_DIRECT_TASKS.map (fun c => ratioQ firstWords (pySplit c.1)) = zeroScores := by
  with_unfolding_all decide

set_option maxRecDepth 40000 in
/-- None of the ten regex patterns matches "first". -/
theorem firstRegexNone :
    DIRECT_TOOL_PATTERNS.find?
      (fun p => searchPairPattern p.1 p.2.1 (pyLower ("first" ++ " " ++ ""))) = none := by
  with_unfolding_all decide

set_option maxRecDepth 40000 in
/-- The necessity classifier does not block "first". -/
theorem check_necessity_first : check_necessity "first" "" = (false, "", "") := by
  unfold check_necessity
  simp only [firstRegexNone]
  have hw : pySplit ((pyLower ("first" ++ " " ++ "")).take 200) = firstWords := rfl
  simp only [hw, necessityFuzzyBest_eval firstWords zeroScores firstScores_eq,
    fuzzyFoldWith_zeros]

/-! ## Evaluating the §8 scenario -/

set_option maxRecDepth 40000 in
/-- t = 0.0: no rule fires on the first general-purpose spawn. -/
theorem c9RuleHit1 :
    ruleHit DEFAULT_CONFIG 0 pRefactor (pruneAttempts 0 default_state) = none := by
  unfold ruleHit
  rw [show pRefactor.description = refactorDesc from rfl,
      show pRefactor.prompt = "" from rfl, check_necessity_refactor]
  with_unfolding_all decide

set_option maxRecDepth 40000 in
/-- t = 0.0: the first general-purpose spawn is allowed and recorded. -/
theorem c9Step1 :
    spawnPipeline DEFAULT_CONFIG hostEnv 0 pRefactor default_state =
      (.allow, some scenarioState1) := by
  unfold spawnPipeline
  rw [c9RuleHit1]
  with_unfolding_all decide

set_option maxRecDepth 40000 in
/-- The session state after the first two §8 events: one agent, and the
t = 0.1 attempt (blocked by R2) recorded in `blocked_attempts`. -/
theorem c9Scenario12 :
    spawnSessionRun DEFAULT_CONFIG hostEnv [scenEv1, scenEv2] = scenarioState2 := by
  have s1 : spawnSessionStep DEFAULT_CONFIG hostEnv default_state scenEv1 =
      scenarioState1 := by
    unfold spawnSessionStep
    rw [show scenEv1.now = (0 : ℚ) from rfl, show scenEv1.payload = pRefactor from rfl,
        c9Step1]
    with_unfolding_all decide
  unfold spawnSessionRun
  simp only [List.foldl_cons, List.foldl_nil]
  rw [s1]
  unfold spawnSessionStep
  with_unfolding_all decide

set_option maxRecDepth 40000 in
/-- t = 0.2: no earlier rule fires, and R7 (global cooldown) does. -/
theorem c9RuleHit3 :
    ruleHit DEFAULT_CONFIG (2 / 10) pExplore
      (pruneAttempts (2 / 10) scenarioState2) = some .blockCooldown := by
  unfold ruleHit
  rw [show pExplore.description = "first" from rfl,
      show pExplore.prompt = "" from rfl, check_necessity_first]
  with_unfolding_all decide

set_option maxRecDepth 40000 in
/-- t = 0.2: the Explore spawn is blocked by the global cooldown (R7), 0.2 s
after the t = 0.0 spawn. -/
theorem c9Step3 :
    (spawnPipeline DEFAULT_CONFIG hostEnv (2 / 10) pExplore scenarioState2).1 =
      .blockCooldown := by
  unfold spawnPipeline
  rw [c9RuleHit3]
  with_unfolding_all decide

set_option maxRecDepth 40000 in
/-- A lone Explore ("first", empty prompt) from the empty state hits no
rule. -/
theorem c9RuleHitLone :
    ruleHit DEFAULT_CONFIG 0 pExplore (pruneAttempts 0 default_state) = none := by
  unfold ruleHit
  rw [show pExplore.description = "first" from rfl,
      show pExplore.prompt = "" from rfl, check_necessity_first]
  with_unfolding_all decide

set_option maxRecDepth 40000 in
/-- A lone Explore ("first", empty prompt) from the empty state is allowed,
and its record carries no `target_dirs` key. -/
theorem c9ExploreAllow :
    spawnPipeline DEFAULT_CONFIG hostEnv 0 pExplore default_state =
      (.allow, some c9AllowedState) := by
  unfold spawnPipeline
  rw [c9RuleHitLone]
  with_unfolding_all decide

/-! ## Shape of the pipeline's saved states -/

/-- When the rule cascade finds no rule to fire, the session cap (R3) in
particular did not fire. -/
theorem ruleHit_none_cap (cfg : Config) (now : ℚ) (p : TaskInput)
    (st : GuardState) (h : ruleHit cfg now p st = none) :
    ¬ cfg.max_agents ≤ st.agent_count := by
  unfold ruleHit at h
  split at h
  · exact Option.noConfusion h
  split at h
  · exact Option.noConfusion h
  split at h
  · exact Option.noConfusion h
  next hr3 => exact hr3

/-- Every spawn-guard event either saves nothing, saves a state with the same
`agent_count` and `agents` (a rule block, which only records the attempt), or
— only when the session cap was not yet reached — saves a state with
`agent_count` incremented and exactly one agent record appended. -/
theorem spawnPipeline_save_cases (cfg : Config) (env : Env) (now : ℚ) (p : TaskInput)
    (st : GuardState) (res : SpawnRes) (osave : Option GuardState)
    (h : spawnPipeline cfg env now p st = (res, osave)) :
    osave = none ∨
    (∃ st', osave = some st' ∧
      st'.agent_count = st.agent_count ∧ st'.agents = st.agents) ∨
    (∃ st' r, osave = some st' ∧
      st'.agent_count = st.agent_count + 1 ∧ st'.agents = st.agents ++ [r] ∧
      ¬ cfg.max_agents ≤ st.agent_count) := by
  unfold spawnPipeline at h
  split at h
  · cases h; exact Or.inl rfl
  split at h
  · cases h; exact Or.inl rfl
  split at h
  · -- team path: cap check, then allow
    split at h
    · cases h; exact Or.inl rfl
    next hcap => cases h; exact Or.inr (Or.inr ⟨_, _, rfl, rfl, rfl, hcap⟩)
  · -- rule cascade R1–R7, then the allow path
    split at h
    · cases h; exact Or.inr (Or.inl ⟨_, rfl, rfl, rfl⟩)
    next heq =>
      cases h
      exact Or.inr (Or.inr ⟨_, _, rfl, rfl, rfl, ruleHit_none_cap cfg now p (pruneAttempts now st) heq⟩)

/-- One spawn-guard event preserves `agent_count = len agents ≤ max_agents`. -/
theorem spawnSessionStep_inv (cfg : Config) (env : Env) (st : GuardState) (e : SpawnEvent)
    (h1 : st.agent_count = (st.agents.length : Int))
    (h2 : st.agent_count ≤ cfg.max_agents) :
    (spawnSessionStep cfg env st e).agent_count =
      ((spawnSessionStep cfg env st e).agents.length : Int) ∧
    (spawnSessionStep cfg env st e).agent_count ≤ cfg.max_agents := by
  unfold spawnSessionStep
  rcases spawnPipeline_save_cases cfg env e.now e.payload st
      (spawnPipeline cfg env e.now e.payload st).1
      (spawnPipeline cfg env e.now e.payload st).2 rfl with
    hnone | ⟨st', hs, hc, ha⟩ | ⟨st', r, hs, hc, ha, hcap⟩
  · rw [hnone]
    exact ⟨h1, h2⟩
  · rw [hs]
    cases hb : e.saveOk
    · exact ⟨h1, h2⟩
    · show st'.agent_count = (st'.agents.length : Int) ∧ st'.agent_count ≤ cfg.max_agents
      rw [hc, ha]
      exact ⟨h1, h2⟩
  · rw [hs]
    cases hb : e.saveOk
    · exact ⟨h1, h2⟩
    · show st'.agent_count = (st'.agents.length : Int) ∧ st'.agent_count ≤ cfg.max_agents
      constructor
      · rw [hc, ha, h1]
        simp [List.length_append]
      · rw [hc]
        omega

/-- **C3.** For every sequence of spawn-guard events for one session,
starting from the empty state and under a non-negative configured cap, the
final state satisfies `len agents ≤ max_agents` and
`agent_count ≤ max_agents` — team spawns included, because the team path
enforces the session cap (R3) too. -/
theorem C3_session_cap (cfg : Config) (env : Env) (h0 : 0 ≤ cfg.max_agents)
    (events : List SpawnEvent) :
    ((spawnSessionRun cfg env events).agents.length : Int) ≤ cfg.max_agents ∧
    (spawnSessionRun cfg env events).agent_count ≤ cfg.max_agents := by
  suffices h : ∀ st : GuardState, st.agent_count = (st.agents.length : Int) →
      st.agent_count ≤ cfg.max_agents →
      ((events.foldl (spawnSessionStep cfg env) st).agent_count =
        ((events.foldl (spawnSessionStep cfg env) st).agents.length : Int) ∧
       (events.foldl (spawnSessionStep cfg env) st).agent_count ≤ cfg.max_agents) by
    have hrun := h default_state rfl h0
    unfold spawnSessionRun
    exact ⟨by rw [← hrun.1]; exact hrun.2, hrun.2⟩
  induction events with
  | nil => intro st hi1 hi2; exact ⟨hi1, hi2⟩
  | cons e t ih =>
    intro st hi1 hi2
    simp only [List.foldl_cons]
    obtain ⟨h1', h2'⟩ := spawnSessionStep_inv cfg env st e hi1 hi2
    exact ih _ h1' h2'

/-- Witness for C3: the concrete seven-event sequence under the default
configuration. -/
theorem C3_session_cap_witness :
    (0 : Int) ≤ DEFAULT_CONFIG.max_agents ∧
    (((spawnSessionRun DEFAULT_CONFIG hostEnv wSpawnEvents).agents.length : Int) ≤
        DEFAULT_CONFIG.max_agents ∧
      (spawnSessionRun DEFAULT_CONFIG hostEnv wSpawnEvents).agent_count ≤
        DEFAULT_CONFIG.max_agents) :=
  ⟨by decide, C3_session_cap DEFAULT_CONFIG hostEnv (by decide) wSpawnEvents⟩

/-- **C4** (counterexample).  The claim says the necessity classifier still
blocks the paraphrase "find where this helper is used across all files"
(empty prompt), reaching the 0.55 fuzzy threshold with pattern
`fuzzy_search_grep`.  On the code it does not block at all:
`check_necessity` returns `(False, "", "")` for this input. -/
theorem C4_counterexample :
    check_necessity "find where this helper is used across all files" "" =
      (false, "", "") :=
  check_necessity_c4

/-- **C4** (amended).  The paraphrase matches none of the ten regex patterns,
and its best word-level sequence-similarity ratio against the canonical
corpus is exactly `8/15 ≈ 0.533` (canonical "find where this function is
called"), which is *below* the 0.55 threshold, so the classifier does not
block: it returns `(False, "", "")`. -/
theorem C4_amended :
    (necessityFuzzyBest c4Words).1 = 8 / 15 ∧
    (necessityFuzzyBest c4Words).1 < FUZZY_THRESHOLD ∧
    check_necessity c4Desc "" = (false, "", "") := by
  refine ⟨?_, ?_, check_necessity_c4⟩
  · rw [c4Fuzzy]
  · rw [c4Fuzzy]
    norm_num [FUZZY_THRESHOLD]

/-- The rule cascade never returns the `allow` outcome. -/
theorem ruleHit_not_allow (cfg : Config) (now : ℚ) (p : TaskInput)
    (st : GuardState) (h : ruleHit cfg now p st = some SpawnRes.allow) : False := by
  unfold ruleHit at h
  repeat' split at h
  all_goals
    first
      | exact Option.noConfusion h
      | (injection h with h'; exact SpawnRes.noConfusion h')

/-- **C9** (amended).  An Explore Task that the rule pipeline *allows* and
whose prompt yields no extractable directories produces an agent record with
*no* `target_dirs` key at all (the source omits the key on an empty
extraction), rather than a record whose `target_dirs` equals the empty list;
and in the §8 scenario the t = 0.2 Explore produces no record at all, being
blocked by the global cooldown (see `C9_counterexample`). -/
theorem C9_amended (cfg : Config) (env : Env) (now : ℚ) (p : TaskInput)
    (st st' : GuardState)
    (hty : p.subagent_type = "Explore")
    (hdirs : extract_target_dirs env p.prompt = [])
    (hallow : spawnPipeline cfg env now p st = (.allow, some st')) :
    st'.agents = st.agents ++
      [{ type := "Explore", description := p.description, timestamp := now,
         team := none, target_dirs := none }] := by
  unfold spawnPipeline at hallow
  split at hallow
  · simp at hallow
  split at hallow
  · simp at hallow
  split at hallow
  · split at hallow
    · simp at hallow
    · simp at hallow
  · split at hallow
    next r heq =>
      exfalso
      injection hallow with hr _
      exact ruleHit_not_allow cfg now p _ (hr ▸ heq)
    next heq =>
      injection hallow with _ hsave
      injection hsave with hst
      rw [← hst]
      show (pruneAttempts now st).agents ++ [allowRecord env now p] = _
      simp [pruneAttempts, allowRecord, hty, hdirs]

/-- Witness for C9 (amended): the lone Explore of the scenario, which is
allowed with a record whose `target_dirs` key is absent. -/
theorem C9_amended_witness :
    pExplore.subagent_type = "Explore" ∧
    extract_target_dirs hostEnv pExplore.prompt = [] ∧
    c9AllowedState.agents = default_state.agents ++
      [{ type := "Explore", description := pExplore.description, timestamp := 0,
         team := none, target_dirs := none }] :=
  ⟨rfl, by with_unfolding_all decide,
   C9_amended DEFAULT_CONFIG hostEnv 0 pExplore default_state c9AllowedState rfl
     (by with_unfolding_all decide) c9ExploreAllow⟩

/-- **C9** (counterexample).  In the §8 scenario the t = 0.2 Explore is not
allowed at all: it is blocked (exit 2) by the global cooldown R7, 0.2 s after
the t = 0.0 spawn, so no agent record is produced — and a lone *allowed*
Explore with no extractable directories gets a record whose `target_dirs`
key is absent (`none`), not one equal to the empty list. -/
theorem C9_counterexample :
    (spawnPipeline DEFAULT_CONFIG hostEnv (2 / 10) pExplore
        (spawnSessionRun DEFAULT_CONFIG hostEnv [scenEv1, scenEv2])).1 =
      .blockCooldown ∧
    SpawnRes.blockCooldown.exit = 2 ∧
    spawnPipeline DEFAULT_CONFIG hostEnv 0 pExplore default_state =
      (.allow, some c9AllowedState) ∧
    c9AllowedState.agents = [c9Record] ∧
    c9Record.target_dirs = none := by
  refine ⟨?_, rfl, c9ExploreAllow, rfl, rfl⟩
  rw [c9Scenario12]
  exact c9Step3

/-! ## Type-switching (R6) -/

set_option maxRecDepth 40000 in
/-- **C5** (counterexample).  R6's similarity is character-level, not
word-level: against a recorded blocked attempt "abcdefgx" of type `Explore`,
a new description "abcdefgh" of a different type has character-level
`SequenceMatcher` ratio `7/8 > 0.6`, so `check_type_switching` fires — while
the word-level ratio of the two descriptions is `0`, so the claim's
word-ratio condition does not hold at this input. -/
theorem C5_counterexample :
    check_type_switching c5State "abcdefgh" "general-purpose" = (true, "Explore") ∧
    ratioQ (pyLower "abcdefgh").toList (pyLower "abcdefgx").toList = 7 / 8 ∧
    specWordRatio "abcdefgh" "abcdefgx" = 0 ∧
    ¬ ((3 / 5 : ℚ) < specWordRatio "abcdefgh" "abcdefgx") := by
  with_unfolding_all decide

/-- **C5** (amended).  Rule R6 blocks exactly when some recorded (unpruned)
blocked attempt has *character-level* `SequenceMatcher` ratio strictly above
0.6 against the new description (both lowercased) and carries a different
subagent type.  (`check_type_switching` receives the already-pruned
`blocked_attempts`, so "recorded" here means unpruned.) -/
theorem C5_amended (st : GuardState) (description subagent_type : String) :
    (check_type_switching st description subagent_type).1 = true ↔
    ∃ a ∈ st.blocked_attempts,
      (3 / 5 : ℚ) < ratioQ (pyLower description).toList (pyLower a.description).toList ∧
      a.type ≠ subagent_type := by
  unfold check_type_switching
  constructor
  · intro h
    cases hf : st.blocked_attempts.find? (fun a =>
        decide ((3 / 5 : ℚ) <
            ratioQ (pyLower description).toList (pyLower a.description).toList
          ∧ a.type ≠ subagent_type)) with
    | none => rw [hf] at h; exact absurd h (by simp)
    | some a =>
      have hmem := List.mem_of_find?_eq_some hf
      have hpred := List.find?_some hf
      simp only [decide_eq_true_eq] at hpred
      exact ⟨a, hmem, hpred⟩
  · rintro ⟨a, hmem, hcond⟩
    cases hf : st.blocked_attempts.find? (fun a =>
        decide ((3 / 5 : ℚ) <
            ratioQ (pyLower description).toList (pyLower a.description).toList
          ∧ a.type ≠ subagent_type)) with
    | some b => rfl
    | none =>
      exfalso
      have hnone := List.find?_eq_none.mp hf a hmem
      simp only [decide_eq_true_eq] at hnone
      exact hnone hcond

set_option maxRecDepth 40000 in
/-- Witness for C5 (amended): the concrete state of the counterexample,
through the backward direction of the equivalence. -/
theorem C5_amended_witness :
    (check_type_switching c5State "abcdefgh" "general-purpose").1 = true :=
  (C5_amended c5State "abcdefgh" "general-purpose").mpr
    ⟨{ type := "Explore", description := "abcdefgx", timestamp := 0 },
     by with_unfolding_all decide, by with_unfolding_all decide,
     by with_unfolding_all decide⟩

/-! ## The read guard's branches -/

/-- Duplicate-path branch: when, counting the current attempt, the pruned
reads of `fp` reach the limit, the guard records a blocked read, keeps
`last_sequential_warn`, prints the duplicate message and exits 2. -/
theorem readStep_dup (st : ReadState) (now : ℚ) (fp : String) (edirs : List String)
    (h : DUPLICATE_FILE_LIMIT ≤
      ((st.reads.filter (fun r => now - r.timestamp < READ_TTL)).filter
        (fun r => r.path = fp)).length + 1) :
    readStep now fp edirs st =
      (⟨2, [.dupBlock]⟩,
       { st with reads := (st.reads.filter (fun r => now - r.timestamp < READ_TTL)) ++
           [{ path := fp, timestamp := now, blocked := true }] }) := by
  simp only [readStep]
  rw [if_pos h]

/-- Sequential-escalation branch: past the duplicate check, when the reads in
the last window (current attempt included) reach the escalation threshold,
the guard records a blocked read and exits 2 — unconditionally, with no
time-based suppression. -/
theorem readStep_seqBlock (st : ReadState) (now : ℚ) (fp : String) (edirs : List String)
    (hdup : ¬ DUPLICATE_FILE_LIMIT ≤
      ((st.reads.filter (fun r => now - r.timestamp < READ_TTL)).filter
        (fun r => r.path = fp)).length + 1)
    (hesc : ESCALATION_THRESHOLD ≤
      ((st.reads.filter (fun r => now - r.timestamp < READ_TTL)).filter
        (fun r => now - r.timestamp < SEQUENTIAL_WINDOW)).length + 1) :
    readStep now fp edirs st =
      (⟨2, [.seqBlock]⟩,
       { st with reads := (st.reads.filter (fun r => now - r.timestamp < READ_TTL)) ++
           [{ path := fp, timestamp := now, blocked := true }] }) := by
  simp only [readStep]
  rw [if_neg hdup, if_pos hesc]

/-- Allow branch: past both blocking checks the guard exits 0, appending an
allowed read; it warns (and stamps `last_sequential_warn`) exactly when the
windowed count reaches the warn threshold and the previous warning is older
than one window. -/
theorem readStep_allow (st : ReadState) (now : ℚ) (fp : String) (edirs : List String)
    (hdup : ¬ DUPLICATE_FILE_LIMIT ≤
      ((st.reads.filter (fun r => now - r.timestamp < READ_TTL)).filter
        (fun r => r.path = fp)).length + 1)
    (hesc : ¬ ESCALATION_THRESHOLD ≤
      ((st.reads.filter (fun r => now - r.timestamp < READ_TTL)).filter
        (fun r => now - r.timestamp < SEQUENTIAL_WINDOW)).length + 1) :
    readStep now fp edirs st =
      (⟨0, (if SEQUENTIAL_THRESHOLD ≤
              ((st.reads.filter (fun r => now - r.timestamp < READ_TTL)).filter
                (fun r => now - r.timestamp < SEQUENTIAL_WINDOW)).length + 1 ∧
            SEQUENTIAL_WINDOW < now - st.last_sequential_warn
            then [.seqWarn] else []) ++
           (if edirs.any (fun d => pyStartsWith fp (d ++ "/") || fp = d)
            then [.exploreWarn] else [])⟩,
       { reads := (st.reads.filter (fun r => now - r.timestamp < READ_TTL)) ++
           [{ path := fp, timestamp := now }]
         last_sequential_warn :=
           if SEQUENTIAL_THRESHOLD ≤
              ((st.reads.filter (fun r => now - r.timestamp < READ_TTL)).filter
                (fun r => now - r.timestamp < SEQUENTIAL_WINDOW)).length + 1 ∧
            SEQUENTIAL_WINDOW < now - st.last_sequential_warn
           then now else st.last_sequential_warn }) := by
  simp only [readStep]
  rw [if_neg hdup, if_neg hesc]

/-- **C6.** For every Read event reaching the duplicate-path check: counting
the current attempt plus the unpruned recorded reads of the same path, a
count at or above the limit (3) makes the guard append a record marked
blocked, save that state, print the duplicate message and exit 2 — with no
time-based suppression.  (The witness replays the §8 triple read.) -/
theorem C6_duplicate_block (st : ReadState) (now : ℚ) (fp : String)
    (edirs : List String)
    (h : DUPLICATE_FILE_LIMIT ≤
      ((st.reads.filter (fun r => now - r.timestamp < READ_TTL)).filter
        (fun r => r.path = fp)).length + 1) :
    (readStep now fp edirs st).1.exit = 2 ∧
    (readStep now fp edirs st).1.msgs = [.dupBlock] ∧
    (readStep now fp edirs st).2 =
      { st with reads := (st.reads.filter (fun r => now - r.timestamp < READ_TTL)) ++
          [{ path := fp, timestamp := now, blocked := true }] } := by
  rw [readStep_dup st now fp edirs h]
  exact ⟨rfl, rfl, rfl⟩

set_option maxRecDepth 40000 in
/-- Witness for C6: the same file read three times in one session — the first
two reads exit 0 and the third exits 2 with a blocked record. -/
theorem C6_duplicate_block_witness :
    (readStep 0 wReadPath [] default_read_state).1.exit = 0 ∧
    (readStep 1 wReadPath [] wRead1).1.exit = 0 ∧
    DUPLICATE_FILE_LIMIT ≤
      ((wRead2.reads.filter (fun r => (2 : ℚ) - r.timestamp < READ_TTL)).filter
        (fun r => r.path = wReadPath)).length + 1 ∧
    (readStep 2 wReadPath [] wRead2).1.exit = 2 ∧
    (readStep 2 wReadPath [] wRead2).1.msgs = [.dupBlock] := by
  refine ⟨by with_unfolding_all decide, by with_unfolding_all decide,
    by with_unfolding_all decide, ?_, ?_⟩
  · exact (C6_duplicate_block wRead2 2 wReadPath [] (by with_unfolding_all decide)).1
  · exact (C6_duplicate_block wRead2 2 wReadPath [] (by with_unfolding_all decide)).2.1

/-- **C7.** Past the duplicate check, counting reads in the last 120-second
window including the current attempt: at 15 or more the guard records a
blocked read and exits 2, unconditionally; below 15 but at 4 or more, with
the last warning older than one window, it emits the sequential warning,
stamps `last_sequential_warn := now`, and allows the read. -/
theorem C7_sequential (st : ReadState) (now : ℚ) (fp : String) (edirs : List String)
    (hdup : ¬ DUPLICATE_FILE_LIMIT ≤
      ((st.reads.filter (fun r => now - r.timestamp < READ_TTL)).filter
        (fun r => r.path = fp)).length + 1) :
    (ESCALATION_THRESHOLD ≤
        ((st.reads.filter (fun r => now - r.timestamp < READ_TTL)).filter
          (fun r => now - r.timestamp < SEQUENTIAL_WINDOW)).length + 1 →
      (readStep now fp edirs st).1.exit = 2 ∧
      (readStep now fp edirs st).1.msgs = [.seqBlock] ∧
      (readStep now fp edirs st).2 =
        { st with reads := (st.reads.filter (fun r => now - r.timestamp < READ_TTL)) ++
            [{ path := fp, timestamp := now, blocked := true }] }) ∧
    (¬ ESCALATION_THRESHOLD ≤
        ((st.reads.filter (fun r => now - r.timestamp < READ_TTL)).filter
          (fun r => now - r.timestamp < SEQUENTIAL_WINDOW)).length + 1 →
      SEQUENTIAL_THRESHOLD ≤
        ((st.reads.filter (fun r => now - r.timestamp < READ_TTL)).filter
          (fun r => now - r.timestamp < SEQUENTIAL_WINDOW)).length + 1 →
      SEQUENTIAL_WINDOW < now - st.last_sequential_warn →
      (readStep now fp edirs st).1.exit = 0 ∧
      .seqWarn ∈ (readStep now fp edirs st).1.msgs ∧
      (readStep now fp edirs st).2.last_sequential_warn = now ∧
      (readStep now fp edirs st).2.reads =
        (st.reads.filter (fun r => now - r.timestamp < READ_TTL)) ++
          [{ path := fp, timestamp := now }]) := by
  constructor
  · intro hesc
    rw [readStep_seqBlock st now fp edirs hdup hesc]
    exact ⟨rfl, rfl, rfl⟩
  · intro hesc hwarn hold
    rw [readStep_allow st now fp edirs hdup hesc]
    refine ⟨rfl, ?_, ?_⟩
    · rw [if_pos ⟨hwarn, hold⟩]
      exact List.mem_append_left _ (List.mem_singleton.mpr rfl)
    · constructor
      · show (if _ ∧ _ then now else st.last_sequential_warn) = now
        rw [if_pos ⟨hwarn, hold⟩]
      · rfl

set_option maxRecDepth 40000 in
/-- Witness for C7: a fifteenth read inside the window blocks; a fourth read
with a stale warning timestamp warns, stamps the warning time and allows. -/
theorem C7_sequential_witness :
    ((readStep 110 "/fresh" [] wSeqReads).1.exit = 2 ∧
      (readStep 110 "/fresh" [] wSeqReads).1.msgs = [.seqBlock]) ∧
    ((readStep 130 "/g3" [] wWarnReads).1.exit = 0 ∧
      .seqWarn ∈ (readStep 130 "/g3" [] wWarnReads).1.msgs ∧
      (readStep 130 "/g3" [] wWarnReads).2.last_sequential_warn = 130) := by
  constructor
  · have h := (C7_sequential wSeqReads 110 "/fresh" [] (by with_unfolding_all decide)).1
      (by with_unfolding_all decide)
    exact ⟨h.1, h.2.1⟩
  · have h := (C7_sequential wWarnReads 130 "/g3" [] (by with_unfolding_all decide)).2
      (by with_unfolding_all decide) (by with_unfolding_all decide)
      (by with_unfolding_all decide)
    exact ⟨h.1, h.2.1, h.2.2.1⟩

/-- **C10** (implicit).  A blocked read attempt is itself appended to the
`reads` list with `blocked := true` and counts toward later duplicate-path
counts; consequently any Read of a path that still has at least two unpruned
records exits 2, so once a path is dup-blocked it stays blocked while two of
its records remain within the TTL. -/
theorem C10_blocked_recorded :
    (∀ (st : ReadState) (now : ℚ) (fp : String) (edirs : List String),
      (readStep now fp edirs st).1.exit = 2 →
      (readStep now fp edirs st).2.reads =
        (st.reads.filter (fun r => now - r.timestamp < READ_TTL)) ++
          [{ path := fp, timestamp := now, blocked := true }]) ∧
    (∀ (st : ReadState) (now : ℚ) (fp : String) (edirs : List String),
      2 ≤ ((st.reads.filter (fun r => now - r.timestamp < READ_TTL)).filter
        (fun r => r.path = fp)).length →
      (readStep now fp edirs st).1.exit = 2) := by
  constructor
  · intro st now fp edirs h
    by_cases hdup : DUPLICATE_FILE_LIMIT ≤
        ((st.reads.filter (fun r => now - r.timestamp < READ_TTL)).filter
          (fun r => r.path = fp)).length + 1
    · rw [readStep_dup st now fp edirs hdup]
    · by_cases hesc : ESCALATION_THRESHOLD ≤
          ((st.reads.filter (fun r => now - r.timestamp < READ_TTL)).filter
            (fun r => now - r.timestamp < SEQUENTIAL_WINDOW)).length + 1
      · rw [readStep_seqBlock st now fp edirs hdup hesc]
      · rw [readStep_allow st now fp edirs hdup hesc] at h
        exact absurd h (by simp)
  · intro st now fp edirs h
    have hdup : DUPLICATE_FILE_LIMIT ≤
        ((st.reads.filter (fun r => now - r.timestamp < READ_TTL)).filter
          (fun r => r.path = fp)).length + 1 := by
      unfold DUPLICATE_FILE_LIMIT
      omega
    rw [readStep_dup st now fp edirs hdup]

/-- Witness for C10: a path with two blocked records still inside the TTL is
blocked again. -/
theorem C10_blocked_recorded_witness :
    (readStep 50 "/p" []
        { reads := [{ path := "/p", timestamp := 10, blocked := true },
                    { path := "/p", timestamp := 20, blocked := true }],
          last_sequential_warn := 0 }).1.exit = 2 :=
  C10_blocked_recorded.2
    { reads := [{ path := "/p", timestamp := 10, blocked := true },
                { path := "/p", timestamp := 20, blocked := true }],
      last_sequential_warn := 0 }
    50 "/p" [] (by with_unfolding_all decide)

/-! ## Stdin triage of the two entry points -/

/-- **C1** (counterexample).  A well-formed JSON payload that is not an
object — here the array `[]` — is parsed successfully, after which the
`.get` attribute accesses raise an uncaught `AttributeError`: both guards die
with a traceback (process exit 1), which is neither the fail-open exit 0 the
claim asserts nor the fail-closed exit 2. -/
theorem C1_counterexample :
    (spawnMain DEFAULT_CONFIG hostEnv 0 [] (some (.jarr []))).1 = .uncaught ∧
    (readMain 0 [] (some (.jarr []))).1.1 = .uncaught ∧
    HookExit.uncaught ≠ .exit0 ∧ HookExit.uncaught ≠ .exit2 :=
  ⟨rfl, rfl, by decide, by decide⟩

/-- **C1** (amended).  Stdin triage as the code implements it: (a) a JSON
parse failure is fail-open for both guards (exit 0); (b) a parsed value that
is not an object makes both guards die on an uncaught exception; (c) on an
object payload whose `session_id` resolves to an invalid string — including
the `"unknown"` default used when the key is missing — the spawn guard is
fail-closed (exit 2). -/
theorem C1_amended (cfg : Config) (env : Env) (now : ℚ) (dir : List SFile) :
    ((spawnMain cfg env now dir none).1 = .exit0 ∧
      (readMain now dir none).1.1 = .exit0) ∧
    (∀ v : JVal, v.isObj = false →
      (spawnMain cfg env now dir (some v)).1 = .uncaught ∧
      (readMain now dir (some v)).1.1 = .uncaught) ∧
    (∀ (fields : List (String × JVal)) (s : String),
      (jlookup fields "session_id").getD (.jstr "unknown") = .jstr s →
      ¬ validSessionId s = true →
      (spawnMain cfg env now dir (some (.jobj fields))).1 = .exit2) := by
  refine ⟨⟨rfl, rfl⟩, ?_, ?_⟩
  · intro v hv
    cases v with
    | jobj f => exact absurd hv (by simp [JVal.isObj])
    | jnull => exact ⟨rfl, rfl⟩
    | jbool b => exact ⟨rfl, rfl⟩
    | jnum q => exact ⟨rfl, rfl⟩
    | jstr s => exact ⟨rfl, rfl⟩
    | jarr l => exact ⟨rfl, rfl⟩
  · intro fields s h hns
    simp only [spawnMain, h]
    rw [if_pos hns]

/-- Witness for C1 (amended): a payload whose `session_id` string is too
short makes the spawn guard exit 2. -/
theorem C1_amended_witness :
    (spawnMain DEFAULT_CONFIG hostEnv 0 []
        (some (.jobj [("session_id", .jstr "bad")]))).1 = .exit2 :=
  (C1_amended DEFAULT_CONFIG hostEnv 0 []).2.2 [("session_id", .jstr "bad")]
    "bad" rfl (by decide)

/-- **C2** (counterexample).  A non-Task payload does not leave state
untouched, and session-id validation runs first: (a) with a valid session id
and `tool_name = "Read"`, the guard exits 0 but the stale sweep — which runs
before stdin is even parsed — has deleted a stale state file; (b) with an
invalid session id and `tool_name = "Read"`, the guard exits 2, not 0. -/
theorem C2_counterexample :
    (spawnMain DEFAULT_CONFIG hostEnv 100000 [c2StaleFile]
        (some (.jobj [("tool_name", .jstr "Read"),
                      ("session_id", .jstr "abcdefgh")]))).2 = [] ∧
    (spawnMain DEFAULT_CONFIG hostEnv 0 []
        (some (.jobj [("tool_name", .jstr "Read"),
                      ("session_id", .jstr "bad")]))).1 = .exit2 := by
  constructor
  · with_unfolding_all rfl
  · with_unfolding_all rfl

/-- **C2** (amended).  For every payload with a valid `session_id` string
whose `tool_name` is not `"Task"`, the spawn guard exits 0 and the state
directory afterwards is exactly the stale-swept directory: the session file
is neither read nor written, but the sweep's deletions do happen, and the
session-id check precedes the filter (an invalid id exits 2 instead, per the
C1 theorems). -/
theorem C2_amended (cfg : Config) (env : Env) (now : ℚ) (dir : List SFile)
    (fields : List (String × JVal)) (s : String)
    (h : (jlookup fields "session_id").getD (.jstr "unknown") = .jstr s)
    (hv : validSessionId s = true)
    (ht : ¬ ((jlookup fields "tool_name").getD (.jstr "")).eqStr "Task" = true) :
    spawnMain cfg env now dir (some (.jobj fields)) =
      (.exit0, cleanup_stale_state cfg.state_ttl_hours now dir) := by
  simp only [spawnMain, h]
  rw [if_neg (not_not_intro hv), if_pos ht]

/-- Witness for C2 (amended): a `Read` payload with a valid session id and an
empty directory exits 0 leaving the directory empty. -/
theorem C2_amended_witness :
    spawnMain DEFAULT_CONFIG hostEnv 0 []
        (some (.jobj [("tool_name", .jstr "Read"),
                      ("session_id", .jstr "abcdefgh")])) =
      (.exit0, []) :=
  (C2_amended DEFAULT_CONFIG hostEnv 0 []
      [("tool_name", .jstr "Read"), ("session_id", .jstr "abcdefgh")]
      "abcdefgh" rfl (by decide) (by decide)).trans rfl

/-! ## The state store -/

/-- **C8** (counterexample).  When the write (or replace) fails *and* the
cleanup `os.unlink(tmp_path)` itself raises an `OSError`, the source's
`except OSError: pass` swallows it: `save_json_state` still returns `False`
with the target untouched, but the temp file is left behind — contradicting
"on any failure, the temp file is unlinked". -/
theorem C8_counterexample :
    save_json_state (JFile.absent : JFile GuardState) default_state
        (.innerFail false) =
      { ok := false, target := .absent, tmpLeft := true } := by
  with_unfolding_all decide

/-- **C8** (amended).  The state store never raises (both functions are total
over every modelled OS outcome); `load` returns the parsed value exactly on a
well-formed file and the default on every failure; `save` on success installs
the state atomically with no temp residue, and on any failure returns false
with the target untouched — but the temp file survives precisely when the
failure is in the write/replace phase and the unlink itself also fails. -/
theorem C8_amended {α : Type} (f : JFile α) (d : Unit → α) (target : JFile α)
    (state : α) (o : SaveOracle) :
    ((∃ v, f = .parsed v ∧ load_json_state f d = v) ∨
      ((∀ v, f ≠ .parsed v) ∧ load_json_state f d = d ())) ∧
    ((save_json_state target state o).ok = true →
      (save_json_state target state o).target = .parsed state ∧
      (save_json_state target state o).tmpLeft = false) ∧
    ((save_json_state target state o).ok = false →
      (save_json_state target state o).target = target) ∧
    ((save_json_state target state o).tmpLeft = true ↔
      o = .innerFail false) := by
  refine ⟨?_, ?_, ?_, ?_⟩
  · cases f with
    | parsed v => exact Or.inl ⟨v, rfl, rfl⟩
    | absent => exact Or.inr ⟨fun v h => JFile.noConfusion h, rfl⟩
    | unreadable => exact Or.inr ⟨fun v h => JFile.noConfusion h, rfl⟩
    | malformed => exact Or.inr ⟨fun v h => JFile.noConfusion h, rfl⟩
  · intro hok
    cases o with
    | ok => exact ⟨rfl, rfl⟩
    | mkstempFail => exact absurd hok (by simp [save_json_state])
    | innerFail u => exact absurd hok (by simp [save_json_state])
  · intro hfail
    cases o with
    | ok => exact absurd hfail (by simp [save_json_state])
    | mkstempFail => rfl
    | innerFail u => rfl
  · cases o with
    | ok => simp [save_json_state]
    | mkstempFail => simp [save_json_state]
    | innerFail u =>
      cases u with
      | false => simp [save_json_state]
      | true => simp [save_json_state]

/-- Witness for C8 (amended): on a `mkstemp` failure against an absent
target, the target stays absent. -/
theorem C8_amended_witness :
    (save_json_state (JFile.absent : JFile GuardState) default_state
        .mkstempFail).target = .absent :=
  (C8_amended JFile.absent (fun _ => default_state) JFile.absent default_state
      .mkstempFail).2.2.1 rfl

end TokenGuard
